import Mathlib

/-!
Verification of the azerust authentication subsystem.

This file gives a shallow embedding, in Lean, of the parts of the
repository that the auditing claims are about:

* the WoW-variant SRP6 server cryptography of `crates/wow-srp/src/lib.rs`
  (verifier generation, server ephemeral key, challenge verification,
  session-key interleave), including the panics hidden in its
  `to_bytes_le().try_into().expect("correct size")` serializations;
* the account-creation credential normalization of
  `crates/mysql-auth/src/accounts.rs`;
* the per-connection authentication state machine of
  `services/auth/src/authserver.rs` (connect/reconnect request handlers,
  the rejection write of the `Rejected` arm, the realm-list arm) together
  with the wire shapes of `services/auth/src/protocol/packets.rs`;
* the realm-list updater tick of `services/auth/src/authserver.rs`.

Bytes are modelled as `Nat` values below 256, byte strings as `List Nat`,
big integers as `Nat`, and Rust panics as `Except.error ()`.  All
definitions are executable; recursion uses explicit fuel so that every
function reduces inside the kernel.
-/

/-! ## Byte and big-integer utilities -/

/-- Truncation to a 32-bit word. -/
def w32 (n : Nat) : Nat := n % 4294967296

/-- Rotate a 32-bit word left by `k` bits. -/
def rotl (k x : Nat) : Nat := w32 (x <<< k) ||| (x >>> (32 - k))

/-- Little-endian bytes to a natural number, as `BigUint::from_bytes_le`. -/
def leNat : List Nat → Nat
  | [] => 0
  | b :: rest => b + 256 * leNat rest

/-- Big-endian bytes to a natural number, as `BigUint::from_bytes_be`. -/
def beNat (l : List Nat) : Nat := l.foldl (fun acc b => 256 * acc + b) 0

/-- Fueled minimal little-endian byte expansion of a natural number. -/
def natToBytesLEAux : Nat → Nat → List Nat
  | 0, _ => []
  | f + 1, n => if n = 0 then [] else n % 256 :: natToBytesLEAux f (n / 256)

/-- Minimal little-endian serialization, as `BigUint::to_bytes_le`
(which yields `[0]` for zero and otherwise no leading-zero padding). -/
def toBytesLE (n : Nat) : List Nat := if n = 0 then [0] else natToBytesLEAux 64 n

/-- Big-endian expansion of `n` into `fuel` bytes (accumulator form). -/
def beBytesAux : Nat → Nat → List Nat → List Nat
  | 0, _, acc => acc
  | f + 1, n, acc => beBytesAux f (n / 256) (n % 256 :: acc)

/-- The four big-endian bytes of a 32-bit word. -/
def beBytes4 (n : Nat) : List Nat := beBytesAux 4 n []

/-- The eight big-endian bytes of a 64-bit value. -/
def beBytes8 (n : Nat) : List Nat := beBytesAux 8 n []

/-- Fueled square-and-multiply modular exponentiation, mirroring
`BigUint::modpow`.  The fuel 512 covers every exponent below `2 ^ 512`. -/
def powModAux : Nat → Nat → Nat → Nat → Nat
  | 0, _, _, m => 1 % m
  | f + 1, b, e, m =>
    if e = 0 then 1 % m
    else
      let h := powModAux f (b * b % m) (e / 2) m
      if e % 2 = 1 then h * b % m else h

/-- `powMod b e m = b ^ e % m` for every exponent below `2 ^ 512`. -/
def powMod (b e m : Nat) : Nat := powModAux 512 b e m

/-- Models `value.to_bytes_le().try_into().expect("correct size")` on a
`[u8; 32]` target: the minimal little-endian bytes are returned only when
they are exactly 32 long, otherwise the Rust code panics. -/
def encode32le (n : Nat) : Except Unit (List Nat) :=
  let bs := toBytesLE n
  if bs.length = 32 then Except.ok bs else Except.error ()

/-! ## SHA-1

A direct model of the `sha1` crate as used by the repository: standard
FIPS 180 SHA-1 over byte strings, digests being 20-byte lists. -/

/-- SHA-1 round constant for round `t`. -/
def sha1K (t : Nat) : Nat :=
  if t < 20 then 0x5A827999
  else if t < 40 then 0x6ED9EBA1
  else if t < 60 then 0x8F1BBCDC
  else 0xCA62C1D6

/-- SHA-1 round mixing function for round `t`. -/
def sha1F (t b c d : Nat) : Nat :=
  if t < 20 then (b &&& c) ||| ((b ^^^ 0xFFFFFFFF) &&& d)
  else if t < 40 then b ^^^ c ^^^ d
  else if t < 60 then (b &&& c) ||| (b &&& d) ||| (c &&& d)
  else b ^^^ c ^^^ d

/-- Big-endian packing of a 64-byte block into 16 words (fueled). -/
def toWordsAux : Nat → List Nat → List Nat
  | 0, _ => []
  | f + 1, a :: b :: c :: d :: rest =>
    (((a * 256 + b) * 256 + c) * 256 + d) :: toWordsAux f rest
  | _ + 1, _ => []

/-- Extension of the 16-word schedule to 80 words, one word per fuel step. -/
def sha1Extend : Nat → List Nat → List Nat
  | 0, ws => ws
  | f + 1, ws =>
    let t := ws.length
    let w := rotl 1 (ws.getD (t - 3) 0 ^^^ ws.getD (t - 8) 0 ^^^
      ws.getD (t - 14) 0 ^^^ ws.getD (t - 16) 0)
    sha1Extend f (ws ++ [w])

/-- The 80 SHA-1 rounds, driven by the list of (round index, word) pairs. -/
def sha1Rounds : List (Nat × Nat) → Nat × Nat × Nat × Nat × Nat → Nat × Nat × Nat × Nat × Nat
  | [], st => st
  | (t, wt) :: rest, (a, b, c, d, e) =>
    let tmp := w32 (rotl 5 a + sha1F t b c d + e + sha1K t + wt)
    sha1Rounds rest (tmp, a, rotl 30 b, c, d)

/-- One SHA-1 compression step on a 64-byte block. -/
def sha1Block (h : Nat × Nat × Nat × Nat × Nat) (block : List Nat) : Nat × Nat × Nat × Nat × Nat :=
  let ws := sha1Extend 64 (toWordsAux 16 block)
  let r := sha1Rounds ((List.range 80).zip ws) h
  (w32 (h.1 + r.1), w32 (h.2.1 + r.2.1), w32 (h.2.2.1 + r.2.2.1),
    w32 (h.2.2.2.1 + r.2.2.2.1), w32 (h.2.2.2.2 + r.2.2.2.2))

/-- Merkle–Damgård padding: `0x80`, zeros to 56 mod 64, 8-byte big-endian
bit length. -/
def sha1Pad (msg : List Nat) : List Nat :=
  msg ++ 128 :: List.replicate ((119 - msg.length % 64) % 64) 0 ++ beBytes8 (8 * msg.length)

/-- Split into 64-byte blocks (fueled). -/
def chunks64 : Nat → List Nat → List (List Nat)
  | 0, _ => []
  | _ + 1, [] => []
  | f + 1, l => l.take 64 :: chunks64 f (l.drop 64)

/-- The SHA-1 initial chaining value. -/
def sha1Init : Nat × Nat × Nat × Nat × Nat :=
  (0x67452301, 0xEFCDAB89, 0x98BADCFE, 0x10325476, 0xC3D2E1F0)

/-- SHA-1 of a byte string, yielding the 20 digest bytes. -/
def sha1 (msg : List Nat) : List Nat :=
  let padded := sha1Pad msg
  let f := (chunks64 padded.length padded).foldl sha1Block sha1Init
  beBytes4 f.1 ++ beBytes4 f.2.1 ++ beBytes4 f.2.2.1 ++ beBytes4 f.2.2.2.1 ++ beBytes4 f.2.2.2.2

/-! ## SRP core (`crates/wow-srp/src/lib.rs`)

The group constants, verifier generation, server state, and challenge
verification.  `Except.error ()` models the panic of
`.try_into().expect("correct size")` when a minimal little-endian
serialization does not come out at exactly 32 bytes. -/

/-- The big-endian bytes of the 256-bit prime `N` (static `N`). -/
def N_BYTES : List Nat :=
  [0x89, 0x4B, 0x64, 0x5E, 0x89, 0xE1, 0x53, 0x5B, 0xBD, 0xAD, 0x5B, 0x8B, 0x29, 0x06, 0x50,
   0x53, 0x08, 0x01, 0xB1, 0x8E, 0xBF, 0xBF, 0x5E, 0x8F, 0xAB, 0x3C, 0x82, 0x87, 0x2A, 0x3E,
   0x9B, 0xB7]

/-- The prime `N = BigUint::from_bytes_be(N_BYTES)`. -/
def Nval : Nat := beNat N_BYTES

/-- The generator `G = BigUint::from_bytes_be([7])`. -/
def gVal : Nat := beNat [7]

/-- The value `g ^ x mod N` computed by `Verifier::from_credentials`:
`x` is the little-endian reading of `SHA1(salt ‖ SHA1(username ":" password))`
(the byte 58 is the ASCII colon). -/
def verifierNum (username password salt : List Nat) : Nat :=
  powMod gVal (leNat (sha1 (salt ++ sha1 (username ++ [58] ++ password)))) Nval

/-- `Verifier::from_credentials`: the verifier bytes, or a panic when the
minimal serialization of `g ^ x mod N` is not exactly 32 bytes.
(`WowSRPServer::register` draws a random salt and delegates here.) -/
def Verifier.fromCredentials (username password salt : List Nat) : Except Unit (List Nat) :=
  encode32le (verifierNum username password salt)

/-- The fixed 32-byte server ephemeral private key `b` hard-coded in
`WowSRPServer::new`. -/
def B_FIXED : List Nat :=
  [0xF0, 0xA4, 0xBB, 0x60, 0x1C, 0xB3, 0xE5, 0x03, 0x41, 0x26, 0xD0, 0xC7, 0x95, 0x73,
   0x19, 0xD3, 0xCB, 0x0D, 0x7B, 0xD6, 0xFE, 0x2E, 0x3C, 0x9F, 0x6F, 0x0C, 0x27, 0x28,
   0x17, 0x55, 0x76, 0x1F]

/-- Server-side SRP state, mirroring the `WowSRPServer` struct. -/
structure WowSRPServer where
  salt : List Nat
  verifier : List Nat
  identityHash : List Nat
  b : List Nat
  bPub : List Nat
deriving DecidableEq

/-- The number `(g ^ be(b) mod N + le(v) * 3) mod N` behind
`WowSRPServer::calculate_b_pub`. -/
def bPubNum (b v : List Nat) : Nat :=
  (powMod gVal (beNat b) Nval + leNat v * 3) % Nval

/-- `WowSRPServer::calculate_b_pub`: serializes `bPubNum` little-endian,
panicking unless the result is exactly 32 bytes. -/
def WowSRPServer.calculateBPub (b v : List Nat) : Except Unit (List Nat) :=
  encode32le (bPubNum b v)

/-- `WowSRPServer::new`: fixed `b`, derived `B`, identity hash
`SHA1(username)`. -/
def WowSRPServer.new (username salt verifier : List Nat) : Except Unit WowSRPServer :=
  (WowSRPServer.calculateBPub B_FIXED verifier).map fun bPub =>
    { salt := salt, verifier := verifier, identityHash := sha1 username,
      b := B_FIXED, bPub := bPub }

/-- Even/odd de-interleave of the first `fuel` byte pairs, as the loop over
`premaster_secret.chunks(2)` filling the 16-byte `left`/`right` arrays
(the input is always exactly 32 bytes long, so 16 pairs). -/
def splitPairs : Nat → List Nat → List Nat × List Nat
  | 0, _ => ([], [])
  | f + 1, a :: b :: rest =>
    let p := splitPairs f rest
    (a :: p.1, b :: p.2)
  | _ + 1, _ => ([], [])

/-- Byte-by-byte interleave of two digests, as the loop over
`k.chunks_mut(2)`. -/
def interleave : List Nat → List Nat → List Nat
  | a :: l, b :: r => a :: b :: interleave l r
  | _, _ => []

/-- `WowSRPServer::derive_session_key`: split the 32-byte premaster secret
into even and odd bytes, drop `start` bytes of each half where `start` is
half the position just past the first non-zero byte, hash both halves and
interleave the two 20-byte digests into 40 bytes. -/
def deriveSessionKey (s : List Nat) : List Nat :=
  let halves := splitPairs 16 s
  let start :=
    (match s.findIdx? (fun v => v != 0) with
     | some i => if s.getD i 0 = 0 then i else i + 1
     | none => s.length) / 2
  interleave (sha1 (halves.1.drop start)) (sha1 (halves.2.drop start))

/-- The number `(le(A) * (le(v) ^ u mod N)) ^ be(b) mod N` that
`verify_challenge_response` serializes as the premaster secret, where
`u = le(SHA1(A ‖ B))`. -/
def WowSRPServer.premasterNum (srv : WowSRPServer) (aPub : List Nat) : Nat :=
  powMod (leNat aPub * powMod (leNat srv.verifier) (leNat (sha1 (aPub ++ srv.bPub))) Nval)
    (beNat srv.b) Nval

/-- `WowSRPServer::verify_challenge_response`: reject `A ≡ 0 mod N`
(`ok none`); otherwise derive the session key from the premaster secret
(panicking — `error ()` — unless its minimal serialization is 32 bytes),
recompute the client proof and compare; `ok (some key)` on a match and
`ok none` on a mismatch. -/
def WowSRPServer.verifyChallengeResponse (srv : WowSRPServer) (aPub clientM : List Nat) :
    Except Unit (Option (List Nat)) :=
  if leNat aPub % Nval = 0 then Except.ok none
  else
    (encode32le (srv.premasterNum aPub)).map fun sBytes =>
      let sessionKey := deriveSessionKey sBytes
      let hnXorHg := List.zipWith (fun x y => x ^^^ y) (sha1 (toBytesLE Nval)) (sha1 (toBytesLE gVal))
      let serverM := sha1 (hnXorHg ++ srv.identityHash ++ srv.salt ++ aPub ++ srv.bPub ++ sessionKey)
      if serverM = clientM then some sessionKey else none

/-! ## Account creation (`crates/mysql-auth/src/accounts.rs`) -/

/-- ASCII uppercasing of one byte, as `u8::to_ascii_uppercase`. -/
def upperByte (b : Nat) : Nat := if 97 ≤ b ∧ b ≤ 122 then b - 32 else b

/-- ASCII uppercasing of a byte string, as `str::to_ascii_uppercase`. -/
def upperAscii (s : List Nat) : List Nat := s.map upperByte

/-- The length-check failures of `MySQLAccountService::create_account`. -/
inductive AccountOpError
  | usernameTooLong
  | passwordTooLong
deriving DecidableEq

/-- The credential processing of `MySQLAccountService::create_account`:
reject names and passwords longer than 16 bytes, uppercase both, then call
`WowSRPServer::register` (that is, `Verifier::from_credentials`; the salt
randomness is passed in as a parameter).  Database writes are outside the
model. -/
def createAccountVerifier (username password salt : List Nat) :
    Except AccountOpError (Except Unit (List Nat)) :=
  if 16 < username.length then Except.error AccountOpError.usernameTooLong
  else if 16 < password.length then Except.error AccountOpError.passwordTooLong
  else Except.ok (Verifier.fromCredentials (upperAscii username) (upperAscii password) salt)

/-! ## Wire codec (`services/auth/src/protocol/packets.rs`) -/

deriving instance DecidableEq for Except

/-- The opcodes of the protocol (`enum AuthCommand`). -/
inductive AuthCommand
  | ConnectRequest
  | AuthLogonProof
  | AuthReconnectChallenge
  | AuthReconnectProof
  | RealmList
  | TransferInitiate
  | TransferData
  | TransferAccept
  | TransferResume
  | TransferCancel
deriving DecidableEq

/-- The wire byte of each opcode (`#[repr(u8)]`). -/
def AuthCommand.toByte : AuthCommand → Nat
  | .ConnectRequest => 0x00
  | .AuthLogonProof => 0x01
  | .AuthReconnectChallenge => 0x02
  | .AuthReconnectProof => 0x03
  | .RealmList => 0x10
  | .TransferInitiate => 0x30
  | .TransferData => 0x31
  | .TransferAccept => 0x32
  | .TransferResume => 0x33
  | .TransferCancel => 0x34

/-- The wire status codes (`enum ReturnCode`). -/
inductive ReturnCode
  | Success
  | Failed
  | Failed2
  | Banned
  | UnknownAccount
  | IncorrectPassword
  | AlreadyOnline
  | NoTime
  | DbBusy
  | VersionInvalid
  | VersionUpdate
  | InvalidServer
  | Suspended
  | NoAccess
  | SuccessSurvey
  | ParentControl
  | LockedEnforced
  | TrialEnded
  | UseBattlenet
  | AntiIndulgence
  | Expired
  | NoGameAccount
  | Chargeback
  | InternetGameRoomWithoutBnet
  | GameAccountLocked
  | UnlockableLock
  | ConversionRequired
  | Disconnected
deriving DecidableEq

/-- The wire byte of each status code (`#[repr(u8)]`). -/
def ReturnCode.toByte : ReturnCode → Nat
  | .Success => 0x00
  | .Failed => 0x01
  | .Failed2 => 0x02
  | .Banned => 0x03
  | .UnknownAccount => 0x04
  | .IncorrectPassword => 0x05
  | .AlreadyOnline => 0x06
  | .NoTime => 0x07
  | .DbBusy => 0x08
  | .VersionInvalid => 0x09
  | .VersionUpdate => 0x0A
  | .InvalidServer => 0x0B
  | .Suspended => 0x0C
  | .NoAccess => 0x0D
  | .SuccessSurvey => 0x0E
  | .ParentControl => 0x0F
  | .LockedEnforced => 0x10
  | .TrialEnded => 0x11
  | .UseBattlenet => 0x12
  | .AntiIndulgence => 0x13
  | .Expired => 0x14
  | .NoGameAccount => 0x15
  | .Chargeback => 0x16
  | .InternetGameRoomWithoutBnet => 0x17
  | .GameAccountLocked => 0x18
  | .UnlockableLock => 0x19
  | .ConversionRequired => 0x20
  | .Disconnected => 0xFF

/-- The login failures of the account store (`enum LoginFailure`). -/
inductive LoginFailure
  | Suspended
  | Banned
  | UnknownAccount
  | IncorrectPassword
  | DatabaseError
deriving DecidableEq

/-- `impl From<LoginFailure> for ReturnCode`. -/
def LoginFailure.toReturnCode : LoginFailure → ReturnCode
  | .Suspended => ReturnCode.Suspended
  | .Banned => ReturnCode.Banned
  | .UnknownAccount => ReturnCode.UnknownAccount
  | .IncorrectPassword => ReturnCode.IncorrectPassword
  | .DatabaseError => ReturnCode.Failed

/-- The 29-byte fixed body of `struct ConnectRequest` (also used for
reconnect requests).  Multi-byte fields are kept as numbers, fixed byte
arrays as byte lists. -/
structure ConnectRequest where
  error : Nat
  size : Nat
  gameName : List Nat
  versionMajor : Nat
  versionMinor : Nat
  versionPatch : Nat
  build : Nat
  platform : List Nat
  os : List Nat
  country : List Nat
  timezoneBias : Nat
  ipv4 : List Nat
  identifierLength : Nat
deriving DecidableEq

/-- `ConnectToken` of `crates/game/src/accounts.rs`: the SRP server state
plus the security flags byte. -/
structure ConnectToken where
  server : WowSRPServer
  securityFlags : Nat
deriving DecidableEq

/-- `ReconnectToken` of `crates/game/src/accounts.rs`.  Of the embedded
`Account` only the username is kept; no embedded handler consults the
other fields. -/
structure ReconnectToken where
  reconnectProof : List Nat
  accountUsername : List Nat
  sessionKey : List Nat
deriving DecidableEq

/-- Serialization of a rejection in the `RequestState::Rejected` arm of
`connect_loop`: `wow_bincode().serialize_into(&mut [0u8; 2], &(command,
reason))` writes the two bytes `[opcode, status]`. -/
def rejectedFrame (c : AuthCommand) (r : ReturnCode) : List Nat :=
  [c.toByte, r.toByte]

/-- Serialization of `ReplyPacket::<()>::new(command, status)` under
`wow_bincode()`: the three bytes `[opcode, unknown = 0, status]` (the
format the unit tests of `packets.rs` pin down for rejection replies). -/
def replyPacketUnitBytes (c : AuthCommand) (r : ReturnCode) : List Nat :=
  [c.toByte, 0, r.toByte]

/-! ## Auth session state machine (`services/auth/src/authserver.rs`) -/

/-- `enum RequestState`. -/
inductive RequestState
  | Start
  | ConnectChallenge (token : ConnectToken)
  | ReconnectChallenge (token : ReconnectToken)
  | Realmlist
  | Rejected (command : AuthCommand) (reason : ReturnCode)
  | Done
deriving DecidableEq

/-- The account-store capability used by the request handlers, as the
`AccountService` trait restricted to the calls the handlers make; the
implementations are external collaborators, so the two lookups are
parameters of the model. -/
structure AccountStore where
  initiateLogin : List Nat → Except LoginFailure ConnectToken
  initiateRelogin : List Nat → Except LoginFailure ReconnectToken

/-- A record of which store calls a handler performed. -/
inductive StoreCall
  | initiateLogin (username : List Nat)
  | initiateRelogin (username : List Nat)
deriving DecidableEq

/-- Is `b` a UTF-8 continuation byte? -/
def isCont (b : Nat) : Bool := decide (128 ≤ b ∧ b ≤ 191)

/-- Fueled UTF-8 validation of a byte string, as `str::from_utf8`. -/
def validUtf8Aux : Nat → List Nat → Bool
  | 0, l => l.isEmpty
  | _ + 1, [] => true
  | f + 1, b :: rest =>
    if b ≤ 127 then validUtf8Aux f rest
    else if 194 ≤ b ∧ b ≤ 223 then
      match rest with
      | c1 :: r => isCont c1 && validUtf8Aux f r
      | [] => false
    else if b = 224 then
      match rest with
      | c1 :: c2 :: r => decide (160 ≤ c1 ∧ c1 ≤ 191) && isCont c2 && validUtf8Aux f r
      | _ => false
    else if (225 ≤ b ∧ b ≤ 236) ∨ b = 238 ∨ b = 239 then
      match rest with
      | c1 :: c2 :: r => isCont c1 && isCont c2 && validUtf8Aux f r
      | _ => false
    else if b = 237 then
      match rest with
      | c1 :: c2 :: r => decide (128 ≤ c1 ∧ c1 ≤ 159) && isCont c2 && validUtf8Aux f r
      | _ => false
    else if b = 240 then
      match rest with
      | c1 :: c2 :: c3 :: r => decide (144 ≤ c1 ∧ c1 ≤ 191) && isCont c2 && isCont c3 && validUtf8Aux f r
      | _ => false
    else if 241 ≤ b ∧ b ≤ 243 then
      match rest with
      | c1 :: c2 :: c3 :: r => isCont c1 && isCont c2 && isCont c3 && validUtf8Aux f r
      | _ => false
    else if b = 244 then
      match rest with
      | c1 :: c2 :: c3 :: r => decide (128 ≤ c1 ∧ c1 ≤ 143) && isCont c2 && isCont c3 && validUtf8Aux f r
      | _ => false
    else false

/-- UTF-8 validity, as `str::from_utf8(..).is_ok()`. -/
def validUtf8 (l : List Nat) : Bool := validUtf8Aux l.length l

/-- The result of `stream.read` into a slice of length `n` of the
zero-initialized 16-byte buffer: available stream bytes, zero-filled.
(The handler ignores the returned read count.) -/
def readInto (n : Nat) (stream : List Nat) : List Nat :=
  stream.take n ++ List.replicate (n - stream.length) 0

/-- `handle_connect_request`: check the build, slice the 16-byte username
buffer (a panic — `error ()` — when `identifier_length > 16`), read and
UTF-8-check the username, then ask the store.  Alongside the follow-up
state it returns the store calls made.  The `ConnectChallenge` reply write
is not modelled; no claim depends on its bytes. -/
def handleConnectRequest (req : ConnectRequest) (stream : List Nat) (store : AccountStore) :
    Except Unit (RequestState × List StoreCall) :=
  if req.build ≠ 12340 then
    Except.ok (RequestState.Rejected AuthCommand.ConnectRequest ReturnCode.VersionInvalid, [])
  else if 16 < req.identifierLength then
    Except.error ()
  else
    let username := readInto req.identifierLength stream
    if validUtf8 username then
      match store.initiateLogin username with
      | Except.ok token =>
        Except.ok (RequestState.ConnectChallenge token, [StoreCall.initiateLogin username])
      | Except.error reason =>
        Except.ok (RequestState.Rejected AuthCommand.ConnectRequest reason.toReturnCode,
          [StoreCall.initiateLogin username])
    else
      Except.ok (RequestState.Rejected AuthCommand.ConnectRequest ReturnCode.Failed, [])

/-- `handle_reconnect_request`: the same shape with the
`AuthReconnectChallenge` command and `initiate_relogin`.  The reconnect
challenge reply write is not modelled; no claim depends on its bytes. -/
def handleReconnectRequest (req : ConnectRequest) (stream : List Nat) (store : AccountStore) :
    Except Unit (RequestState × List StoreCall) :=
  if req.build ≠ 12340 then
    Except.ok (RequestState.Rejected AuthCommand.AuthReconnectChallenge ReturnCode.VersionInvalid, [])
  else if 16 < req.identifierLength then
    Except.error ()
  else
    let username := readInto req.identifierLength stream
    if validUtf8 username then
      match store.initiateRelogin username with
      | Except.ok token =>
        Except.ok (RequestState.ReconnectChallenge token, [StoreCall.initiateRelogin username])
      | Except.error e =>
        Except.ok (RequestState.Rejected AuthCommand.AuthReconnectChallenge e.toReturnCode,
          [StoreCall.initiateRelogin username])
    else
      Except.ok (RequestState.Rejected AuthCommand.AuthReconnectChallenge ReturnCode.Failed, [])

/-- The wire realm entry `struct Realm` of `packets.rs`.  The `f32`
population is kept as its four raw wire bytes, floating point being
outside the embedding; no claim inspects it. -/
structure RealmPkt where
  realmType : Nat
  locked : Bool
  flags : Nat
  name : List Nat
  socket : List Nat
  populationBytes : List Nat
  characterCount : Nat
  timezone : Nat
  realmId : Nat
deriving DecidableEq

/-- A `bool` on the wire. -/
def boolByte (b : Bool) : Nat := if b then 1 else 0

/-- The two little-endian bytes of a `u16`. -/
def u16le (n : Nat) : List Nat := [n % 256, n / 256 % 256]

/-- `wow_bincode` serialization of one realm entry: fixed integers,
null-terminated strings. -/
def serializeRealm (r : RealmPkt) : List Nat :=
  [r.realmType, boolByte r.locked, r.flags] ++ r.name ++ [0] ++ r.socket ++ [0]
    ++ r.populationBytes ++ [r.characterCount, r.timezone, r.realmId]

/-- The summed serialized size of the realm entries
(`RealmListResponse::from_realms`). -/
def realmsLen (realms : List RealmPkt) : Nat :=
  (realms.map fun r => (serializeRealm r).length).sum

/-- The full realm-list reply assembled by `handle_realmlist`: the
`RealmList` opcode, the `RealmListResponse` header (`packet_size`,
4 reserved bytes, `realm_count`), the realm entries, and the trailing
`[0x10, 0x00]`.  The `u16` casts wrap as in release-mode Rust. -/
def realmListFrame (realms : List RealmPkt) : List Nat :=
  AuthCommand.RealmList.toByte ::
    u16le ((4 + 2 + realmsLen realms % 65536 + 2) % 65536) ++ [0, 0, 0, 0]
    ++ u16le (realms.length % 65536)
    ++ (realms.map serializeRealm).flatten ++ [0x10, 0x00]

/-- `handle_realmlist`: write the realm-list frame and return
`RequestState::Done`. -/
def handleRealmlist (realms : List RealmPkt) : List Nat × RequestState :=
  (realmListFrame realms, RequestState.Done)

/-- `RealmListRequest` (4 opaque bytes). -/
structure RealmListRequest where
  data : List Nat
deriving DecidableEq

/-- The parsed messages `connect_loop` can receive (`enum Message`); the
proof payloads are omitted, no embedded arm consumes them. -/
inductive Message
  | ConnectRequestMsg (r : ConnectRequest)
  | ConnectProofMsg
  | ReconnectRequestMsg (r : ConnectRequest)
  | ReconnectProofMsg
  | RealmListMsg (r : RealmListRequest)
deriving DecidableEq

/-- The tail of `connect_loop` after authentication, covering exactly the
states reachable from `Realmlist`: in `Realmlist` a `RealmList` message is
answered with the realm-list frame and the state returned by
`handle_realmlist`; any other message (or a failed read, the empty list)
makes the loop return an error without writing; the `Rejected` arm writes
its two-byte frame and moves to `Done`; `Done` breaks the loop.  The
pre-authentication arms (`Start` and the challenge states) are not
reachable from `Realmlist` and yield no writes here. -/
def connectLoopTail (realms : List RealmPkt) : RequestState → List Message → List (List Nat)
  | RequestState.Realmlist, Message.RealmListMsg _ :: rest =>
    (handleRealmlist realms).1 :: connectLoopTail realms (handleRealmlist realms).2 rest
  | RequestState.Realmlist, _ => []
  | RequestState.Rejected c r, _ => [rejectedFrame c r]
  | _, _ => []

/-! ## Realm-list updater (`AuthServer::realmlist_updater`) -/

/-- `enum RealmFlags` restricted to the two flags the updater emits. -/
inductive RealmFlags
  | Offline
  | Recommended
deriving DecidableEq

/-- The drain condition of the updater:
`now.duration_since(v).as_secs() > 15`, with instants in nanoseconds and
`as_secs` truncating. -/
def heartbeatStale (now t : Nat) : Bool := decide (15 < (now - t) / 1000000000)

/-- One tick of `realmlist_updater` on the heartbeat table (realm id,
last-seen instant in nanoseconds): entries past the drain condition are
removed and flagged `Offline`, the remaining keys are flagged
`Recommended`.  Returns the update list and the table left behind. -/
def updaterTick (now : Nat) (table : List (Nat × Nat)) :
    List (Nat × RealmFlags) × List (Nat × Nat) :=
  let drained := table.filter fun e => heartbeatStale now e.2
  let remaining := table.filter fun e => ! heartbeatStale now e.2
  ((drained.map fun e => (e.1, RealmFlags.Offline))
    ++ remaining.map fun e => (e.1, RealmFlags.Recommended), remaining)

/-! ## Helper lemmas -/

theorem powModAux_lt (f : Nat) : ∀ b e m : Nat, 0 < m → powModAux f b e m < m := by
  induction f with
  | zero =>
    intro b e m hm
    simpa [powModAux] using Nat.mod_lt 1 hm
  | succ f ih =>
    intro b e m hm
    simp only [powModAux]
    split
    · exact Nat.mod_lt 1 hm
    · split
      · exact Nat.mod_lt _ hm
      · exact ih _ _ _ hm

theorem powMod_lt (b e m : Nat) (hm : 0 < m) : powMod b e m < m :=
  powModAux_lt 512 b e m hm

theorem Nval_pos : 0 < Nval := by decide

theorem Nval_lt : Nval < 2 ^ 256 := by decide

theorem natToBytesLEAux_len_le (f : Nat) :
    ∀ k n : Nat, n < 2 ^ (8 * k) → (natToBytesLEAux f n).length ≤ k := by
  induction f with
  | zero =>
    intro k n _
    simp [natToBytesLEAux]
  | succ f ih =>
    intro k n hn
    simp only [natToBytesLEAux]
    split
    · simp
    · rename_i h0
      match k with
      | 0 => exact absurd (by simpa using hn) h0
      | k + 1 =>
        simp only [List.length_cons]
        have hdiv : n / 256 < 2 ^ (8 * k) := by
          apply Nat.div_lt_of_lt_mul
          have : 2 ^ (8 * (k + 1)) = 256 * 2 ^ (8 * k) := by
            rw [Nat.mul_succ, Nat.pow_add]
            ring
          omega
        exact Nat.succ_le_succ (ih k (n / 256) hdiv)

theorem le_natToBytesLEAux_len (f : Nat) :
    ∀ k n : Nat, k < f → 2 ^ (8 * k) ≤ n → k + 1 ≤ (natToBytesLEAux f n).length := by
  induction f with
  | zero =>
    intro k n hk _
    exact absurd hk (Nat.not_lt_zero k)
  | succ f ih =>
    intro k n hk hn
    have h0 : n ≠ 0 := by
      have : 0 < 2 ^ (8 * k) := Nat.pos_pow_of_pos _ (by omega)
      omega
    simp only [natToBytesLEAux, if_neg h0, List.length_cons]
    match k with
    | 0 => omega
    | k + 1 =>
      have hdiv : 2 ^ (8 * k) ≤ n / 256 := by
        rw [Nat.le_div_iff_mul_le (by omega)]
        have : 2 ^ (8 * (k + 1)) = 2 ^ (8 * k) * 256 := by
          rw [Nat.mul_succ, Nat.pow_add]
        omega
      exact Nat.succ_le_succ (ih k (n / 256) (by omega) hdiv)

theorem encode32le_eq_ok (n : Nat) (h1 : 2 ^ 248 ≤ n) (h2 : n < 2 ^ 256) :
    encode32le n = Except.ok (toBytesLE n) := by
  have h0 : n ≠ 0 := by
    have : (0 : Nat) < 2 ^ 248 := Nat.pos_pow_of_pos _ (by omega)
    omega
  have hle : (natToBytesLEAux 64 n).length ≤ 32 :=
    natToBytesLEAux_len_le 64 32 n (by norm_num at h2 ⊢; exact h2)
  have hge : 31 + 1 ≤ (natToBytesLEAux 64 n).length :=
    le_natToBytesLEAux_len 64 31 n (by omega) (by norm_num at h1 ⊢; exact h1)
  have hlen : (toBytesLE n).length = 32 := by
    unfold toBytesLE
    rw [if_neg h0]
    omega
  unfold encode32le
  simp [hlen]

theorem encode32le_eq_error (n : Nat) (h : n < 2 ^ 248) : encode32le n = Except.error () := by
  by_cases h0 : n = 0
  · subst h0
    decide
  · have hle : (natToBytesLEAux 64 n).length ≤ 31 :=
      natToBytesLEAux_len_le 64 31 n (by norm_num at h ⊢; exact h)
    have hlen : (toBytesLE n).length ≠ 32 := by
      unfold toBytesLE
      rw [if_neg h0]
      omega
    unfold encode32le
    simp [hlen]

theorem beBytes4_length (n : Nat) : (beBytes4 n).length = 4 := rfl

theorem sha1_length (msg : List Nat) : (sha1 msg).length = 20 := by
  simp [sha1, beBytes4_length]

theorem interleave_length : ∀ l r : List Nat, (interleave l r).length = 2 * min l.length r.length := by
  intro l
  induction l with
  | nil => intro r; cases r <;> simp [interleave]
  | cons a l ih =>
    intro r
    cases r with
    | nil => simp [interleave]
    | cons b r =>
      simp [interleave, ih r]
      omega

theorem keysNodup_mem_eq {l : List (Nat × Nat)} {a b c : Nat}
    (hnd : (l.map Prod.fst).Nodup) (hb : (a, b) ∈ l) (hc : (a, c) ∈ l) : b = c := by
  induction l with
  | nil => cases hb
  | cons e l ih =>
    simp only [List.map_cons, List.nodup_cons] at hnd
    rcases List.mem_cons.mp hb with hb1 | hb1 <;> rcases List.mem_cons.mp hc with hc1 | hc1
    · rw [← hc1] at hb1
      exact ((Prod.mk.injEq _ _ _ _).mp hb1).2
    · exfalso
      apply hnd.1
      rw [← hb1]
      simpa using List.mem_map_of_mem Prod.fst hc1
    · exfalso
      apply hnd.1
      rw [← hc1]
      simpa using List.mem_map_of_mem Prod.fst hb1
    · exact ih hnd.2 hb1 hc1

theorem updaterTick_offline_mem (now : Nat) (table : List (Nat × Nat)) (id : Nat) :
    (id, RealmFlags.Offline) ∈ (updaterTick now table).1 ↔
      ∃ t, (id, t) ∈ table ∧ heartbeatStale now t = true := by
  unfold updaterTick
  simp only [List.mem_append, List.mem_map, List.mem_filter]
  constructor
  · rintro (⟨⟨k, t⟩, ⟨hmem, hcond⟩, heq⟩ | ⟨e, _, heq⟩)
    · simp only [Prod.mk.injEq] at heq
      obtain ⟨h1, _⟩ := heq
      subst h1
      exact ⟨t, hmem, hcond⟩
    · simp only [Prod.mk.injEq] at heq
      exact absurd heq.2 (by simp)
  · rintro ⟨t, hmem, hcond⟩
    exact Or.inl ⟨(id, t), ⟨hmem, hcond⟩, rfl⟩

theorem updaterTick_recommended_mem (now : Nat) (table : List (Nat × Nat)) (id : Nat) :
    (id, RealmFlags.Recommended) ∈ (updaterTick now table).1 ↔
      ∃ t, (id, t) ∈ table ∧ heartbeatStale now t = false := by
  unfold updaterTick
  simp only [List.mem_append, List.mem_map, List.mem_filter]
  constructor
  · rintro (⟨e, _, heq⟩ | ⟨⟨k, t⟩, ⟨hmem, hcond⟩, heq⟩)
    · simp only [Prod.mk.injEq] at heq
      exact absurd heq.2 (by simp)
    · simp only [Prod.mk.injEq] at heq
      obtain ⟨h1, _⟩ := heq
      subst h1
      exact ⟨t, hmem, by simpa using hcond⟩
  · rintro ⟨t, hmem, hcond⟩
    exact Or.inr ⟨(id, t), ⟨hmem, by simpa using hcond⟩, rfl⟩

/-! ## Concrete reference data (spec §8 and the crate unit tests) -/

set_option maxRecDepth 1000000

/-- The ASCII bytes of the username ARLYON. -/
def ARLYON : List Nat := [65, 82, 76, 89, 79, 78]

/-- The ASCII bytes of the password TEST. -/
def TEST_PW : List Nat := [84, 69, 83, 84]

/-- The reference salt of the ARLYON account. -/
def SALT_REF : List Nat :=
  [187, 90, 185, 129, 207, 201, 1, 39, 118, 43, 185, 47, 102, 19, 75, 54, 17, 102, 255,
   182, 144, 248, 239, 202, 238, 158, 71, 164, 216, 195, 53, 226]

/-- The reference verifier of the ARLYON account (little-endian bytes). -/
def VERIFIER_REF : List Nat :=
  [44, 42, 171, 164, 129, 208, 59, 156, 50, 148, 246, 223, 12, 222, 85, 21, 129, 251, 36,
   170, 7, 130, 79, 109, 238, 227, 72, 88, 196, 33, 67, 90]

/-- The reference client public key `A` (little-endian bytes). -/
def A_REF : List Nat :=
  [161, 6, 45, 226, 95, 140, 75, 203, 143, 102, 171, 182, 96, 203, 237, 67, 17, 103, 16,
   227, 227, 142, 50, 15, 13, 77, 41, 161, 5, 167, 206, 21]

/-- The reference client proof `M1`. -/
def M1_REF : List Nat :=
  [79, 160, 38, 217, 3, 168, 13, 96, 14, 75, 198, 236, 162, 247, 255, 220, 89, 145, 220, 68]

/-- The premaster secret of the published session-key vector. -/
def S_REF : List Nat :=
  [19, 10, 81, 2, 224, 175, 69, 69, 84, 172, 123, 122, 83, 70, 70, 11, 104, 26, 227, 161,
   13, 124, 152, 156, 116, 130, 69, 161, 134, 49, 47, 87]

/-- The published 40-byte session key for `S_REF`. -/
def K_REF : List Nat :=
  [250, 249, 162, 120, 246, 212, 243, 32, 54, 127, 15, 13, 84, 137, 96, 197, 162, 197, 95,
   221, 107, 218, 252, 23, 37, 95, 250, 83, 182, 53, 105, 254, 23, 14, 207, 191, 85, 207,
   209, 111]

/-- A salt under which the ARLYON-style inner hash drives `g ^ x mod N`
below `2 ^ 248` for the credentials `A` / `B`, tripping the serialization
panic of `Verifier::from_credentials`. -/
def BAD_SALT : List Nat := 233 :: List.replicate 31 0

/-- A verifier byte string solving `g ^ be(B_FIXED) + 3 v ≡ 1 (mod N)`, so
`calculate_b_pub` computes the one-byte value 1 and panics. -/
def V_BAD : List Nat :=
  [17, 254, 101, 129, 235, 122, 230, 86, 113, 54, 166, 41, 236, 121, 232, 236, 202, 102,
   73, 147, 63, 53, 73, 66, 72, 130, 70, 105, 55, 50, 0, 27]

/-- 32 zero bytes (an all-zero salt or verifier). -/
def ZERO32 : List Nat := List.replicate 32 0

/-- The client public key with value 1 (little-endian bytes). -/
def A_ONE : List Nat := 1 :: List.replicate 31 0

/-- The server state that `WowSRPServer::new` builds for the username `x`
with an all-zero salt and verifier (the premaster secret it then computes
for `A_ONE` is zero, whose serialization panics). -/
def SRV_ZERO : WowSRPServer :=
  { salt := ZERO32, verifier := ZERO32, identityHash := sha1 [120], b := B_FIXED,
    bPub := [133, 161, 12, 166, 196, 17, 137, 166, 59, 187, 204, 66, 202, 67, 72, 65, 242,
      27, 42, 111, 204, 187, 209, 246, 130, 204, 13, 78, 184, 205, 74, 56] }

/-- A concrete `ConnectRequest` body with the given build and identifier
length (remaining fields as a 3.3.5a client would fill them). -/
def testRequest (build idLen : Nat) : ConnectRequest :=
  { error := 0, size := 30, gameName := [87, 111, 87, 0], versionMajor := 3,
    versionMinor := 3, versionPatch := 5, build := build, platform := [120, 56, 54, 0],
    os := [87, 105, 110, 0], country := [101, 110, 85, 83], timezoneBias := 0,
    ipv4 := [127, 0, 0, 1], identifierLength := idLen }

/-- A store with no accounts: both lookups fail with `UnknownAccount`. -/
def unknownStore : AccountStore :=
  { initiateLogin := fun _ => Except.error LoginFailure.UnknownAccount,
    initiateRelogin := fun _ => Except.error LoginFailure.UnknownAccount }

/-! ## Claims -/

/-- C1: for the spec reference inputs (ARLYON salt and verifier, client
public key `A_REF`, client proof `M1_REF`) the claim says
`verify_challenge_response` MUST return a session key.  The code does
not: the server proof it recomputes differs from `M1_REF`, so it returns
`None` (`ok none` — no panic, no key), contradicting the crate unit
test `test_challenge_response` which asserts `is_some()` on exactly
these inputs. -/
theorem c1_verify_rejects_reference_vectors :
    (WowSRPServer.new ARLYON SALT_REF VERIFIER_REF).bind
      (fun srv => srv.verifyChallengeResponse A_REF M1_REF) = Except.ok none := by
  decide

/-- C5 counterexample: `Verifier::from_credentials` does not uppercase, so
the verifier of the lowercase credentials `a` / `b` under the all-zero
salt differs from the verifier of their uppercased forms. -/
theorem c5_counterexample :
    Verifier.fromCredentials [97] [98] ZERO32 ≠
      Verifier.fromCredentials (upperAscii [97]) (upperAscii [98]) ZERO32 := by
  decide

theorem upperByte_idem (b : Nat) : upperByte (upperByte b) = upperByte b := by
  unfold upperByte
  by_cases h : 97 ≤ b ∧ b ≤ 122
  · rw [if_pos h, if_neg (by omega)]
  · rw [if_neg h, if_neg h]

theorem upperAscii_idem (s : List Nat) : upperAscii (upperAscii s) = upperAscii s := by
  unfold upperAscii
  rw [List.map_map]
  exact List.map_congr_left fun b _ => upperByte_idem b

/-- C5 amended: the ASCII uppercasing happens in
`MySQLAccountService::create_account`, the caller of `register`, not
inside the verifier computation itself; consequently account creation is
invariant under uppercasing its credential inputs, while
`Verifier::from_credentials` taken alone is case-sensitive. -/
theorem c5_create_account_uppercases (username password salt : List Nat) :
    createAccountVerifier username password salt =
      createAccountVerifier (upperAscii username) (upperAscii password) salt := by
  unfold createAccountVerifier
  have h1 : (upperAscii username).length = username.length := by simp [upperAscii]
  have h2 : (upperAscii password).length = password.length := by simp [upperAscii]
  rw [h1, h2, upperAscii_idem, upperAscii_idem]

/-- C7: the session-key interleave of any 32-byte premaster secret is
exactly 40 bytes, and on the published reference input `S_REF` it yields
the published vector `K_REF`. -/
theorem c7_interleave_length_and_vector :
    (∀ s : List Nat, s.length = 32 → (deriveSessionKey s).length = 40) ∧
    deriveSessionKey S_REF = K_REF := by
  constructor
  · intro s _
    simp [deriveSessionKey, interleave_length, sha1_length]
  · decide

/-- C7 witness: the reference input is 32 bytes long and its interleave is
40 bytes long. -/
theorem c7_witness : S_REF.length = 32 ∧ (deriveSessionKey S_REF).length = 40 :=
  ⟨by decide, c7_interleave_length_and_vector.1 S_REF (by decide)⟩

/-- C2: the claim says every rejection is the 3-byte frame
`[opcode, 0x00, status]`, in particular `00 00 09` for a build-12339
ConnectRequest naming ARLYON.  The `Rejected` arm of `connect_loop`
instead serializes `(command, reason)` into a 2-byte buffer, writing
`[0x00, 0x09]`; the 3-byte format is produced only by the unused
`ReplyPacket::<()>` that the `packets.rs` unit tests pin down. -/
theorem c2_rejection_frame_is_two_bytes :
    handleConnectRequest (testRequest 12339 6) ARLYON unknownStore =
      Except.ok (RequestState.Rejected AuthCommand.ConnectRequest ReturnCode.VersionInvalid, []) ∧
    rejectedFrame AuthCommand.ConnectRequest ReturnCode.VersionInvalid = [0x00, 0x09] ∧
    rejectedFrame AuthCommand.ConnectRequest ReturnCode.VersionInvalid ≠ [0x00, 0x00, 0x09] ∧
    replyPacketUnitBytes AuthCommand.ConnectRequest ReturnCode.VersionInvalid = [0x00, 0x00, 0x09] := by
  decide

/-- C3 counterexample: answering a RealmListRequest moves the state to
`Done`, not back to `Realmlist`; feeding two RealmListRequests to the
loop from the `Realmlist` state writes exactly one response frame. -/
theorem c3_counterexample :
    (handleRealmlist []).2 ≠ RequestState.Realmlist ∧
    connectLoopTail [] RequestState.Realmlist
        [Message.RealmListMsg ⟨[0, 0, 0, 0]⟩, Message.RealmListMsg ⟨[0, 0, 0, 0]⟩] =
      [realmListFrame []] := by
  decide

/-- C3 amended: in the `Realmlist` state a RealmListRequest is answered
with the realm-list frame, but the state machine then moves to `Done`,
which breaks the connection loop, so a further RealmListRequest on the
same connection is not answered. -/
theorem c3_realmlist_answers_once (realms : List RealmPkt) (r : RealmListRequest)
    (rest : List Message) :
    handleRealmlist realms = (realmListFrame realms, RequestState.Done) ∧
    connectLoopTail realms RequestState.Realmlist (Message.RealmListMsg r :: rest) =
      realmListFrame realms :: connectLoopTail realms RequestState.Done rest ∧
    connectLoopTail realms RequestState.Done rest = [] := by
  refine ⟨rfl, rfl, ?_⟩
  cases rest <;> rfl

/-- C4 counterexample: a heartbeat aged 15.5 seconds (nanosecond clock) is
strictly older than 15 seconds, yet the tick classifies the realm
`Recommended`, not `Offline`, because `as_secs()` truncates and the code
drains only when the whole-second age exceeds 15. -/
theorem c4_counterexample :
    15 * 1000000000 < 15500000000 - 0 ∧
    (1, RealmFlags.Offline) ∉ (updaterTick 15500000000 [(1, 0)]).1 ∧
    (1, RealmFlags.Recommended) ∈ (updaterTick 15500000000 [(1, 0)]).1 := by
  decide

/-- C4 amended: on a tick at instant `now`, a realm whose sole heartbeat
entry carries instant `t` is classified Offline exactly when the age
truncated to whole seconds exceeds 15 (that is, the age is at least 16
seconds), and Recommended exactly otherwise — equivalently, exactly when
its entry survives the drain. -/
theorem c4_offline_iff_truncated_age (now : Nat) (table : List (Nat × Nat)) (id t : Nat)
    (hnd : (table.map Prod.fst).Nodup) (hmem : (id, t) ∈ table) :
    ((id, RealmFlags.Offline) ∈ (updaterTick now table).1 ↔ 15 < (now - t) / 1000000000) ∧
    ((id, RealmFlags.Recommended) ∈ (updaterTick now table).1 ↔
      ¬ 15 < (now - t) / 1000000000) := by
  constructor
  · rw [updaterTick_offline_mem]
    constructor
    · rintro ⟨u, humem, hcond⟩
      rw [keysNodup_mem_eq hnd hmem humem]
      simpa [heartbeatStale] using hcond
    · intro h
      refine ⟨t, hmem, ?_⟩
      simpa [heartbeatStale] using h
  · rw [updaterTick_recommended_mem]
    constructor
    · rintro ⟨u, humem, hcond⟩
      rw [keysNodup_mem_eq hnd hmem humem]
      simpa [heartbeatStale] using hcond
    · intro h
      refine ⟨t, hmem, ?_⟩
      simpa [heartbeatStale] using h

/-- C4 witness: a single heartbeat aged exactly 16 seconds is classified
Offline and not Recommended. -/
theorem c4_witness :
    (([(1, 0)] : List (Nat × Nat)).map Prod.fst).Nodup ∧ (1, 0) ∈ ([(1, 0)] : List (Nat × Nat)) ∧
    ((1, RealmFlags.Offline) ∈ (updaterTick 16000000000 [(1, 0)]).1 ↔
      15 < (16000000000 - 0) / 1000000000) ∧
    ((1, RealmFlags.Recommended) ∈ (updaterTick 16000000000 [(1, 0)]).1 ↔
      ¬ 15 < (16000000000 - 0) / 1000000000) :=
  ⟨by decide, by decide,
    (c4_offline_iff_truncated_age 16000000000 [(1, 0)] 1 0 (by decide) (by decide)).1,
    (c4_offline_iff_truncated_age 16000000000 [(1, 0)] 1 0 (by decide) (by decide)).2⟩

/-- C6: a ConnectRequest or ReconnectRequest whose build is not 12340 is
rejected with VersionInvalid before the username is read, and the account
store is never consulted (the handler performs no store call). -/
theorem c6_version_mismatch_short_circuits (req : ConnectRequest) (stream : List Nat)
    (store : AccountStore) (h : req.build ≠ 12340) :
    handleConnectRequest req stream store =
      Except.ok (RequestState.Rejected AuthCommand.ConnectRequest ReturnCode.VersionInvalid, []) ∧
    handleReconnectRequest req stream store =
      Except.ok (RequestState.Rejected AuthCommand.AuthReconnectChallenge
        ReturnCode.VersionInvalid, []) := by
  constructor
  · unfold handleConnectRequest
    rw [if_pos h]
  · unfold handleReconnectRequest
    rw [if_pos h]

/-- C6 witness: a build-12339 request is version-rejected on both paths
with no store call. -/
theorem c6_witness :
    (testRequest 12339 6).build ≠ 12340 ∧
    handleConnectRequest (testRequest 12339 6) ARLYON unknownStore =
      Except.ok (RequestState.Rejected AuthCommand.ConnectRequest ReturnCode.VersionInvalid, []) ∧
    handleReconnectRequest (testRequest 12339 6) ARLYON unknownStore =
      Except.ok (RequestState.Rejected AuthCommand.AuthReconnectChallenge
        ReturnCode.VersionInvalid, []) :=
  ⟨by decide,
    (c6_version_mismatch_short_circuits (testRequest 12339 6) ARLYON unknownStore (by decide)).1,
    (c6_version_mismatch_short_circuits (testRequest 12339 6) ARLYON unknownStore (by decide)).2⟩

/-- C8: within a single updater tick the update list never carries the
same realm id with both the Offline and the Recommended flag (the drain
and the collection of surviving keys partition one snapshot of the
table). -/
theorem c8_flags_disjoint_per_tick (now : Nat) (table : List (Nat × Nat)) (id : Nat)
    (hnd : (table.map Prod.fst).Nodup) :
    ¬((id, RealmFlags.Offline) ∈ (updaterTick now table).1 ∧
      (id, RealmFlags.Recommended) ∈ (updaterTick now table).1) := by
  rintro ⟨h1, h2⟩
  obtain ⟨t1, hm1, hc1⟩ := (updaterTick_offline_mem now table id).mp h1
  obtain ⟨t2, hm2, hc2⟩ := (updaterTick_recommended_mem now table id).mp h2
  rw [keysNodup_mem_eq hnd hm1 hm2] at hc1
  rw [hc1] at hc2
  cases hc2

/-- C8 witness: instantiation on a one-entry table. -/
theorem c8_witness :
    (([(1, 0)] : List (Nat × Nat)).map Prod.fst).Nodup ∧
    ¬((1, RealmFlags.Offline) ∈ (updaterTick 0 [(1, 0)]).1 ∧
      (1, RealmFlags.Recommended) ∈ (updaterTick 0 [(1, 0)]).1) :=
  ⟨by decide, c8_flags_disjoint_per_tick 0 [(1, 0)] 1 (by decide)⟩

/-- C9 counterexample: a request with `identifier_length = 17` but build
12339 does not panic — the build check fires first and the handler
returns the VersionInvalid rejection. -/
theorem c9_counterexample :
    16 < (testRequest 12339 17).identifierLength ∧
    handleConnectRequest (testRequest 12339 17) ARLYON unknownStore ≠ Except.error () ∧
    handleConnectRequest (testRequest 12339 17) ARLYON unknownStore =
      Except.ok (RequestState.Rejected AuthCommand.ConnectRequest ReturnCode.VersionInvalid, []) := by
  decide

/-- C9 amended: on a build-12340 request whose `identifier_length` exceeds
16 the handlers panic slicing the 16-byte username buffer (they neither
read the tail nor reject); and the Failed / UnknownAccount rejections are
reachable only when `identifier_length ≤ 16`. -/
theorem c9_oversized_identifier_panics (req : ConnectRequest) (stream : List Nat)
    (store : AccountStore) :
    (req.build = 12340 → 16 < req.identifierLength →
      handleConnectRequest req stream store = Except.error () ∧
      handleReconnectRequest req stream store = Except.error ()) ∧
    (∀ c r calls,
      handleConnectRequest req stream store = Except.ok (RequestState.Rejected c r, calls) →
      r = ReturnCode.Failed ∨ r = ReturnCode.UnknownAccount → req.identifierLength ≤ 16) ∧
    (∀ c r calls,
      handleReconnectRequest req stream store = Except.ok (RequestState.Rejected c r, calls) →
      r = ReturnCode.Failed ∨ r = ReturnCode.UnknownAccount → req.identifierLength ≤ 16) := by
  refine ⟨fun hb hlen => ?_, fun c r calls hok hr => ?_, fun c r calls hok hr => ?_⟩
  · constructor
    · unfold handleConnectRequest
      rw [if_neg (not_not_intro hb), if_pos hlen]
    · unfold handleReconnectRequest
      rw [if_neg (not_not_intro hb), if_pos hlen]
  · by_cases hb : req.build = 12340
    · by_cases hlen : 16 < req.identifierLength
      · unfold handleConnectRequest at hok
        rw [if_neg (not_not_intro hb), if_pos hlen] at hok
        cases hok
      · omega
    · unfold handleConnectRequest at hok
      rw [if_pos hb] at hok
      simp only [Except.ok.injEq, Prod.mk.injEq, RequestState.Rejected.injEq] at hok
      obtain ⟨⟨-, hr2⟩, -⟩ := hok
      rcases hr with h | h <;> rw [← hr2] at h <;> cases h
  · by_cases hb : req.build = 12340
    · by_cases hlen : 16 < req.identifierLength
      · unfold handleReconnectRequest at hok
        rw [if_neg (not_not_intro hb), if_pos hlen] at hok
        cases hok
      · omega
    · unfold handleReconnectRequest at hok
      rw [if_pos hb] at hok
      simp only [Except.ok.injEq, Prod.mk.injEq, RequestState.Rejected.injEq] at hok
      obtain ⟨⟨-, hr2⟩, -⟩ := hok
      rcases hr with h | h <;> rw [← hr2] at h <;> cases h

/-- C9 witness: a build-12340 request with `identifier_length = 17`
panics on both paths, and an UnknownAccount rejection arises at
`identifier_length = 6 ≤ 16`. -/
theorem c9_witness :
    ((testRequest 12340 17).build = 12340 ∧ 16 < (testRequest 12340 17).identifierLength ∧
      handleConnectRequest (testRequest 12340 17) ARLYON unknownStore = Except.error () ∧
      handleReconnectRequest (testRequest 12340 17) ARLYON unknownStore = Except.error ()) ∧
    (handleConnectRequest (testRequest 12340 6) ARLYON unknownStore =
        Except.ok (RequestState.Rejected AuthCommand.ConnectRequest ReturnCode.UnknownAccount,
          [StoreCall.initiateLogin ARLYON]) ∧
      (testRequest 12340 6).identifierLength ≤ 16) := by
  refine ⟨⟨rfl, by decide, ?_⟩, ⟨by decide, ?_⟩⟩
  · exact (c9_oversized_identifier_panics (testRequest 12340 17) ARLYON unknownStore).1
      rfl (by decide)
  · exact (c9_oversized_identifier_panics (testRequest 12340 6) ARLYON unknownStore).2.1
      AuthCommand.ConnectRequest ReturnCode.UnknownAccount [StoreCall.initiateLogin ARLYON]
      (by decide) (Or.inr rfl)

/-- C10: the SRP core serializes its 256-bit values without left-padding
and asserts 32 bytes, so each of `from_credentials`, `calculate_b_pub`
and the premaster-secret step of `verify_challenge_response` panics
exactly when its computed value is below `2 ^ 248` (minimal little-endian
encoding shorter than 32 bytes), and is total when the value is at least
`2 ^ 248`. -/
theorem c10_serialization_panics_below_2_pow_248 :
    (∀ username password salt : List Nat, verifierNum username password salt < 2 ^ 248 →
      Verifier.fromCredentials username password salt = Except.error ()) ∧
    (∀ username password salt : List Nat, 2 ^ 248 ≤ verifierNum username password salt →
      ∃ bs, Verifier.fromCredentials username password salt = Except.ok bs) ∧
    (∀ b v : List Nat, bPubNum b v < 2 ^ 248 →
      WowSRPServer.calculateBPub b v = Except.error ()) ∧
    (∀ b v : List Nat, 2 ^ 248 ≤ bPubNum b v →
      ∃ bs, WowSRPServer.calculateBPub b v = Except.ok bs) ∧
    (∀ (srv : WowSRPServer) (aPub clientM : List Nat), leNat aPub % Nval ≠ 0 →
      srv.premasterNum aPub < 2 ^ 248 →
      srv.verifyChallengeResponse aPub clientM = Except.error ()) ∧
    (∀ (srv : WowSRPServer) (aPub clientM : List Nat), 2 ^ 248 ≤ srv.premasterNum aPub →
      ∃ r, srv.verifyChallengeResponse aPub clientM = Except.ok r) := by
  have hver_lt : ∀ username password salt : List Nat,
      verifierNum username password salt < 2 ^ 256 := fun u p s =>
    Nat.lt_trans (powMod_lt _ _ _ Nval_pos) Nval_lt
  have hbpub_lt : ∀ b v : List Nat, bPubNum b v < 2 ^ 256 := fun b v =>
    Nat.lt_trans (Nat.mod_lt _ Nval_pos) Nval_lt
  have hpre_lt : ∀ (srv : WowSRPServer) (aPub : List Nat),
      srv.premasterNum aPub < 2 ^ 256 := fun srv aPub =>
    Nat.lt_trans (powMod_lt _ _ _ Nval_pos) Nval_lt
  refine ⟨fun u p s h => ?_, fun u p s h => ?_, fun b v h => ?_, fun b v h => ?_,
    fun srv aPub m hA h => ?_, fun srv aPub m h => ?_⟩
  · unfold Verifier.fromCredentials
    exact encode32le_eq_error _ h
  · exact ⟨_, encode32le_eq_ok _ h (hver_lt u p s)⟩
  · unfold WowSRPServer.calculateBPub
    exact encode32le_eq_error _ h
  · exact ⟨_, encode32le_eq_ok _ h (hbpub_lt b v)⟩
  · unfold WowSRPServer.verifyChallengeResponse
    rw [if_neg hA, encode32le_eq_error _ h]
    rfl
  · by_cases hA : leNat aPub % Nval = 0
    · exact ⟨none, by unfold WowSRPServer.verifyChallengeResponse; rw [if_pos hA]⟩
    · cases hres : srv.verifyChallengeResponse aPub m with
      | ok r => exact ⟨r, rfl⟩
      | error e =>
        exfalso
        unfold WowSRPServer.verifyChallengeResponse at hres
        rw [if_neg hA, encode32le_eq_ok _ h (hpre_lt srv aPub)] at hres
        simp [Except.map] at hres

/-- C10 witness: a salt under which `from_credentials` panics on the
credentials `A` / `B`; the ARLYON reference credentials on which it is
total; a verifier on which `calculate_b_pub` panics; and a server state
(the one `WowSRPServer::new` builds for username `x` with all-zero salt
and verifier) on which `verify_challenge_response` panics at the client
public key 1. -/
theorem c10_witness :
    (verifierNum [65] [66] BAD_SALT < 2 ^ 248 ∧
      Verifier.fromCredentials [65] [66] BAD_SALT = Except.error ()) ∧
    (2 ^ 248 ≤ verifierNum ARLYON TEST_PW SALT_REF ∧
      ∃ bs, Verifier.fromCredentials ARLYON TEST_PW SALT_REF = Except.ok bs) ∧
    (bPubNum B_FIXED V_BAD < 2 ^ 248 ∧
      WowSRPServer.calculateBPub B_FIXED V_BAD = Except.error ()) ∧
    (WowSRPServer.new [120] ZERO32 ZERO32 = Except.ok SRV_ZERO ∧
      leNat A_ONE % Nval ≠ 0 ∧ SRV_ZERO.premasterNum A_ONE < 2 ^ 248 ∧
      SRV_ZERO.verifyChallengeResponse A_ONE M1_REF = Except.error ()) :=
  ⟨⟨by decide, c10_serialization_panics_below_2_pow_248.1 [65] [66] BAD_SALT (by decide)⟩,
    ⟨by decide, c10_serialization_panics_below_2_pow_248.2.1 ARLYON TEST_PW SALT_REF (by decide)⟩,
    ⟨by decide, c10_serialization_panics_below_2_pow_248.2.2.1 B_FIXED V_BAD (by decide)⟩,
    ⟨by decide,
      by decide,
      by decide,
      c10_serialization_panics_below_2_pow_248.2.2.2.2.1 SRV_ZERO A_ONE M1_REF (by decide)
        (by decide)⟩⟩
